import Mathlib

/-!
Verification of the checkpointed batch-import scripts
(`bubble_import.py`, `bubble_import_avatars.py`, `bubble_import_documents.py`).

The Python sources are shallowly embedded below.  External collaborators
(Supabase tables, Supabase storage, the Vincere REST API, the filesystem,
`uuid`, `mimetypes`) are modelled as explicit oracle parameters; machine
integers are `Nat` (Python ints are unbounded); Python `str` is modelled on
its ASCII fragment (`str.lower`, `str.strip`, `\w`, `\s`, `str.title`,
`str.isalnum` and unicode NFKD normalisation are embedded with their ASCII
behaviour, which is what every constant in the scripts uses).
-/

/-! ## Python string primitives -/

/-- Python whitespace (`str.strip`, regex `\s`), ASCII fragment. -/
def pySpace (c : Char) : Bool :=
  c = ' ' ∨ c = '\t' ∨ c = '\n' ∨ c = '\r' ∨ c = '\x0b' ∨ c = '\x0c'

/-- Regex `\w` (word character), ASCII fragment. -/
def isWordChar (c : Char) : Bool :=
  c.isAlphanum || c = '_'

/-- `str.strip()` on a character list. -/
def pyStripL (cs : List Char) : List Char :=
  ((cs.dropWhile pySpace).reverse.dropWhile pySpace).reverse

/-- `str.strip()`. -/
def pyStrip (s : String) : String :=
  String.mk (pyStripL s.data)

/-- `str.lower()`, ASCII fragment. -/
def pyLower (s : String) : String :=
  String.mk (s.data.map Char.toLower)

/-- Greedy span: the maximal prefix whose characters satisfy `p`, and the rest. -/
def spanP (p : Char → Bool) : List Char → List Char × List Char
  | [] => ([], [])
  | c :: cs =>
    if p c then
      let r := spanP p cs
      (c :: r.1, r.2)
    else ([], c :: cs)

/-- Python `pat in s` (substring containment), on character lists. -/
def listContains (pat : List Char) : List Char → Bool
  | [] => pat.isEmpty
  | c :: t => pat.isPrefixOf (c :: t) || listContains pat t

/-- Python `pat in hay` for strings. -/
def strContainsStr (hay pat : String) : Bool :=
  listContains pat.data hay.data

/-- Digits of a decimal literal read as an unbounded integer (`int(...)`). -/
def natOfDigits (cs : List Char) : Nat :=
  cs.foldl (fun n c => n * 10 + (c.toNat - 48)) 0

/-- `str.zfill(2)` for the day/month capture groups. -/
def zfill2 (d : List Char) : String :=
  if d.length = 1 then String.mk ('0' :: d) else String.mk d

/-! ## `parse_date` (bubble_import.py lines 299-337)

Three regex shapes tried in priority order:
`^(\w+)\s+(\d{1,2}),?\s+(\d{4})` (with a month-abbreviation table lookup on
the first three lowered characters of the word), `^(\d{4})-(\d{2})-(\d{2})`,
and `^(\d{1,2})/(\d{1,2})/(\d{4})`.  All three are prefix matches
(`re.match`, unanchored at the end). -/

/-- The `months` dict of `parse_date`. -/
def monthsTable : List (String × String) :=
  [("jan", "01"), ("feb", "02"), ("mar", "03"), ("apr", "04"),
   ("may", "05"), ("jun", "06"), ("jul", "07"), ("aug", "08"),
   ("sep", "09"), ("oct", "10"), ("nov", "11"), ("dec", "12")]

/-- `months[month_str]` when `month_str in months`. -/
def monthNum (m : String) : Option String :=
  (monthsTable.find? (fun kv => kv.1 == m)).map (fun kv => kv.2)

/-- Shape 1, `^(\w+)\s+(\d{1,2}),?\s+(\d{4})` plus the month lookup.
The day run must have length 1 or 2 (a longer digit run makes the regex fail:
no backtracking point can separate three digits from the required `,?\s+`). -/
def bubbleMatch (cs : List Char) : Option String :=
  let p1 := spanP isWordChar cs
  if p1.1.isEmpty then none
  else
    let p2 := spanP pySpace p1.2
    if p2.1.isEmpty then none
    else
      let p3 := spanP Char.isDigit p2.2
      if p3.1.isEmpty || decide (p3.1.length > 2) then none
      else
        let r4 := match p3.2 with
          | ',' :: t => t
          | r => r
        let p5 := spanP pySpace r4
        if p5.1.isEmpty then none
        else
          match p5.2 with
          | y1 :: y2 :: y3 :: y4 :: _ =>
            if y1.isDigit && y2.isDigit && y3.isDigit && y4.isDigit then
              match monthNum (String.mk ((p1.1.take 3).map Char.toLower)) with
              | some mm => some (String.mk [y1, y2, y3, y4] ++ "-" ++ mm ++ "-" ++ zfill2 p3.1)
              | none => none
            else none
          | _ => none

/-- Shape 2, `^(\d{4})-(\d{2})-(\d{2})` (prefix; trailing text ignored). -/
def isoMatch : List Char → Option String
  | a :: b :: c :: d :: '-' :: e :: f :: '-' :: g :: h :: _ =>
    if a.isDigit && b.isDigit && c.isDigit && d.isDigit && e.isDigit && f.isDigit &&
       g.isDigit && h.isDigit then
      some (String.mk [a, b, c, d] ++ "-" ++ String.mk [e, f] ++ "-" ++ String.mk [g, h])
    else none
  | _ => none

/-- Shape 3, `^(\d{1,2})/(\d{1,2})/(\d{4})` (prefix; trailing text ignored). -/
def usMatch (cs : List Char) : Option String :=
  let p1 := spanP Char.isDigit cs
  if p1.1.isEmpty || decide (p1.1.length > 2) then none
  else
    match p1.2 with
    | '/' :: r2 =>
      let p2 := spanP Char.isDigit r2
      if p2.1.isEmpty || decide (p2.1.length > 2) then none
      else
        match p2.2 with
        | '/' :: y1 :: y2 :: y3 :: y4 :: _ =>
          if y1.isDigit && y2.isDigit && y3.isDigit && y4.isDigit then
            some (String.mk [y1, y2, y3, y4] ++ "-" ++ zfill2 p1.1 ++ "-" ++ zfill2 p2.1)
          else none
        | _ => none
    | _ => none

/-- `parse_date` (bubble_import.py:299). -/
def parse_date (value : String) : Option String :=
  if value = "" then none
  else
    let s := pyStripL value.data
    match bubbleMatch s with
    | some r => some r
    | none =>
      match isoMatch s with
      | some r => some r
      | none => usMatch s

/-! ## Range parsers (bubble_import.py lines 402-444) -/

/-- `re.sub(r"[€$£]|euro|eur|usd", "", value, flags=IGNORECASE)`:
ordered alternation, leftmost scan, non-overlapping removals; at each
position the currency class is tried first, then `euro`, `eur`, `usd`
(case-insensitively); on no match the character is kept and the scan
advances one position. -/
def stripSalaryTokensGo : Nat → List Char → List Char
  | 0, cs => cs
  | fuel + 1, cs =>
    match cs with
    | [] => []
    | c :: rest =>
      if c = '€' ∨ c = '$' ∨ c = '£' then stripSalaryTokensGo fuel rest
      else if c.toLower = 'e' then
        match rest with
        | c2 :: rest2 =>
          if c2.toLower = 'u' then
            match rest2 with
            | c3 :: rest3 =>
              if c3.toLower = 'r' then
                match rest3 with
                | c4 :: rest4 =>
                  if c4.toLower = 'o' then stripSalaryTokensGo fuel rest4
                  else stripSalaryTokensGo fuel (c4 :: rest4)
                | [] => []
              else c :: stripSalaryTokensGo fuel rest
            | [] => c :: stripSalaryTokensGo fuel rest
          else c :: stripSalaryTokensGo fuel rest
        | [] => c :: stripSalaryTokensGo fuel rest
      else if c.toLower = 'u' then
        match rest with
        | c2 :: c3 :: rest3 =>
          if c2.toLower = 's' ∧ c3.toLower = 'd' then stripSalaryTokensGo fuel rest3
          else c :: stripSalaryTokensGo fuel rest
        | _ => c :: stripSalaryTokensGo fuel rest
      else c :: stripSalaryTokensGo fuel rest

/-- The scan consumes at least one character per fuel step, so `cs.length`
fuel always reaches the end of the input (the fuel-0 base case is never hit
with a non-empty remainder). -/
def stripSalaryTokens (cs : List Char) : List Char :=
  stripSalaryTokensGo cs.length cs

/-- `re.sub(r"m|meters?|ft|feet", "", value, flags=IGNORECASE)`.
The `m` alternative is tried first, so `meters?` can never fire (any position
where it could match starts with `m` and the single-character alternative
wins); `ft` precedes `feet`. -/
def stripYachtTokensGo : Nat → List Char → List Char
  | 0, cs => cs
  | fuel + 1, cs =>
    match cs with
    | [] => []
    | c :: rest =>
      if c.toLower = 'm' then stripYachtTokensGo fuel rest
      else if c.toLower = 'f' then
        match rest with
        | c2 :: rest2 =>
          if c2.toLower = 't' then stripYachtTokensGo fuel rest2
          else if c2.toLower = 'e' then
            match rest2 with
            | c3 :: c4 :: rest4 =>
              if c3.toLower = 'e' ∧ c4.toLower = 't' then stripYachtTokensGo fuel rest4
              else c :: stripYachtTokensGo fuel rest
            | _ => c :: stripYachtTokensGo fuel rest
          else c :: stripYachtTokensGo fuel rest
        | [] => c :: stripYachtTokensGo fuel rest
      else c :: stripYachtTokensGo fuel rest

/-- As for the salary tokens, `cs.length` fuel always suffices. -/
def stripYachtTokens (cs : List Char) : List Char :=
  stripYachtTokensGo cs.length cs

/-- Scanner for
`re.sub(r"(\d+)k", lambda m: str(int(m.group(1)) * 1000), cleaned, flags=IGNORECASE)`:
`acc` is the digit run collected so far; a run immediately followed by
`k`/`K` is replaced by its value times 1000, any other run is copied
verbatim (no match can start inside it); replacement text is not rescanned. -/
def kExpandGo (acc : List Char) : List Char → List Char
  | [] => acc
  | c :: rest =>
    if c.isDigit then kExpandGo (acc ++ [c]) rest
    else if acc ≠ [] ∧ (c = 'k' ∨ c = 'K') then
      Nat.toDigits 10 (natOfDigits acc * 1000) ++ kExpandGo [] rest
    else acc ++ c :: kExpandGo [] rest

def kExpand (cs : List Char) : List Char :=
  kExpandGo [] cs

/-- `re.findall(r"\d+", cs)` followed by `int(...)` on each maximal run. -/
def extractNatsGo (acc : List Char) : List Char → List Nat
  | [] => if acc = [] then [] else [natOfDigits acc]
  | c :: rest =>
    if c.isDigit then extractNatsGo (acc ++ [c]) rest
    else if acc = [] then extractNatsGo [] rest
    else natOfDigits acc :: extractNatsGo [] rest

def extractNats (cs : List Char) : List Nat :=
  extractNatsGo [] cs

/-- The `(min, max)` rule shared by both range parsers: zero numbers found
gives `(None, None)`, one gives `(v, v)`, two or more give the first two. -/
def rangeOfNums : List Nat → Option Nat × Option Nat
  | [] => (none, none)
  | [a] => (some a, some a)
  | a :: b :: _ => (some a, some b)

/-- `parse_salary_range` (bubble_import.py:402). -/
def parse_salary_range (value : String) : Option Nat × Option Nat :=
  if value = "" then (none, none)
  else
    let cleaned := pyStripL (stripSalaryTokens value.data)
    let cleaned2 := kExpand cleaned
    match extractNats cleaned2 with
    | [] => (none, none)
    | [a] => (some a, some a)
    | a :: b :: _ => (some a, some b)

/-- `parse_yacht_size_range` (bubble_import.py:427).  Note: no `k` expansion. -/
def parse_yacht_size_range (value : String) : Option Nat × Option Nat :=
  if value = "" then (none, none)
  else
    let cleaned := pyStripL (stripYachtTokens value.data)
    match extractNats cleaned with
    | [] => (none, none)
    | [a] => (some a, some a)
    | a :: b :: _ => (some a, some b)

/-! ## Remaining field mappers (bubble_import.py lines 339-574) -/

/-- `parse_boolean` (bubble_import.py:339). -/
def parse_boolean (value : String) : Bool :=
  if value = "" then false
  else
    let lower := pyStrip (pyLower value)
    lower = "yes" ∨ lower = "true" ∨ lower = "1"

/-- `str.title()`, ASCII fragment: the first letter of each letter run is
upper-cased, the following letters lower-cased; non-letters break runs. -/
def pyTitleGo : Bool → List Char → List Char
  | _, [] => []
  | prevAlpha, c :: t =>
    if c.isAlpha then (if prevAlpha then c.toLower else c.toUpper) :: pyTitleGo true t
    else c :: pyTitleGo false t

def pyTitle (s : String) : String :=
  String.mk (pyTitleGo false s.data)

/-- The `license_map` table of `normalize_license`; entries mapped to `none`
are the keys whose value is Python `None`. -/
def licenseMap : List (String × Option String) :=
  [("master 3000gt", some "Master 3000GT"),
   ("master 3000", some "Master 3000GT"),
   ("master (yacht) 3000gt", some "Master 3000GT"),
   ("master 500gt", some "Master 500GT"),
   ("master (yacht) 500gt", some "Master 500GT"),
   ("oow 3000gt", some "OOW 3000GT"),
   ("oow 500gt", some "OOW 500GT"),
   ("yacht rating", some "Yacht Rating"),
   ("yachtmaster offshore", some "Yachtmaster Offshore"),
   ("yachtmaster ocean", some "Yachtmaster Ocean"),
   ("yachtmaster coastal", some "Yachtmaster Coastal"),
   ("day skipper", some "Day Skipper"),
   ("no licence", none),
   ("none", none),
   ("n/a", none)]

/-- `normalize_license` (bubble_import.py:346). -/
def normalize_license (value : String) : Option String :=
  if value = "" then none
  else
    let v := pyLower (pyStrip value)
    match licenseMap.find? (fun kv => kv.1 == v) with
    | some kv => kv.2
    | none => if v ≠ "" then some (pyTitle v) else none

/-- `normalize_position` (bubble_import.py:373): ordered substring search in
four category tables. -/
def normalize_position (value : String) : Option String × Option String :=
  if value = "" then (none, none)
  else
    let v := pyStrip value
    let lower := pyLower v
    let deck := ["captain", "first officer", "second officer", "third officer",
                 "bosun", "deckhand", "deck/stew"]
    let interior := ["chief stewardess", "chief stew", "stewardess", "stew",
                     "purser", "housekeeper", "laundry"]
    let engineer := ["chief engineer", "second engineer", "third engineer",
                     "eto", "electrician"]
    let galley := ["head chef", "chef", "sous chef", "cook", "galley"]
    if deck.any (fun p => strContainsStr lower p) then (some v, some "deck")
    else if interior.any (fun p => strContainsStr lower p) then (some v, some "interior")
    else if engineer.any (fun p => strContainsStr lower p) then (some v, some "engineering")
    else if galley.any (fun p => strContainsStr lower p) then (some v, some "galley")
    else (some v, none)

/-- `normalize_contract_types` (bubble_import.py:446). -/
def normalize_contract_types (value : String) : List String :=
  if value = "" then []
  else
    let lower := pyLower value
    (if strContainsStr lower "perm" then ["permanent"] else []) ++
    (if strContainsStr lower "rotat" then ["rotational"] else []) ++
    (if strContainsStr lower "temp" || strContainsStr lower "season" then ["temporary"] else [])

/-- `normalize_yacht_types` (bubble_import.py:463). -/
def normalize_yacht_types (value : String) : List String :=
  if value = "" then []
  else
    let lower := pyLower value
    (if strContainsStr lower "motor" then ["motor"] else []) ++
    (if strContainsStr lower "sail" then ["sail"] else []) ++
    (if strContainsStr lower "catamaran" || strContainsStr lower "cat" then ["catamaran"] else [])

/-- `normalize_availability_status` (bubble_import.py:480): first key of the
(insertion-ordered) `status_map` occurring as a substring wins. -/
def normalize_availability_status (value : String) : Option String :=
  if value = "" then none
  else
    let lower := pyStrip (pyLower value)
    let statusMap : List (String × String) :=
      [("available", "available"), ("active", "available"), ("looking", "available"),
       ("employed", "employed"), ("working", "employed"),
       ("not available", "unavailable"), ("unavailable", "unavailable")]
    match statusMap.find? (fun kv => strContainsStr lower kv.1) with
    | some kv => some kv.2
    | none => none

/-! ## Python dict values and records -/

/-- A Python value as stored in the candidate dicts (only the shapes the
scripts produce). -/
inductive PyVal where
  | vnull : PyVal
  | vstr : String → PyVal
  | vbool : Bool → PyVal
  | vnat : Nat → PyVal
  | vlist : List String → PyVal
deriving DecidableEq, Repr

/-- Python truthiness for the shapes above ("", 0, [], None are falsy). -/
def truthy : PyVal → Bool
  | .vnull => false
  | .vstr s => s ≠ ""
  | .vbool b => b
  | .vnat n => n ≠ 0
  | .vlist l => ¬ l.isEmpty

/-- A Python dict with string keys (insertion-ordered association list). -/
abbrev Dict := List (String × PyVal)

/-- `d.get(k)` (absent key gives None). -/
def dictGet (d : Dict) (k : String) : PyVal :=
  match d.find? (fun kv => kv.1 == k) with
  | some kv => kv.2
  | none => .vnull

/-- `d[k] = v` (replace if the key exists, else append). -/
def dictSet (d : Dict) (k : String) (v : PyVal) : Dict :=
  if d.any (fun kv => kv.1 == k) then
    d.map (fun kv => if kv.1 == k then (k, v) else kv)
  else d ++ [(k, v)]

/-- `{kk: vv for kk, vv in d.items() if kk != k}`. -/
def dictDrop (d : Dict) (k : String) : Dict :=
  d.filter (fun kv => kv.1 != k)

/-- A CSV row as produced by `csv.DictReader`: string values,
`row.get(k, "")` gives `""` on a missing column. -/
abbrev Row := List (String × String)

/-- `row.get(k, "")`. -/
def rowGet (r : Row) (k : String) : String :=
  match r.find? (fun kv => kv.1 == k) with
  | some kv => kv.2
  | none => ""

/-- `s or None` idiom. -/
def strOrNull (s : String) : PyVal :=
  if s = "" then .vnull else .vstr s

/-- `xs or None` idiom for lists. -/
def listOrNull (l : List String) : PyVal :=
  if l.isEmpty then .vnull else .vlist l

/-- Optional string into a dict value. -/
def optStrVal : Option String → PyVal
  | some s => .vstr s
  | none => .vnull

/-- Optional int into a dict value. -/
def optNatVal : Option Nat → PyVal
  | some n => .vnat n
  | none => .vnull

/-- `s.split(sep)` for a one-character separator (`"".split(",") = [""]`). -/
def splitOnChar (sep : Char) : List Char → List (List Char)
  | [] => [[]]
  | c :: rest =>
    match splitOnChar sep rest with
    | [] => [[]]
    | g :: gs => if c = sep then [] :: g :: gs else (c :: g) :: gs

/-- Python truthiness of an `Optional[int]` (`None` and `0` are falsy). -/
def truthyOptNat : Option Nat → Bool
  | some n => n ≠ 0
  | none => false

/-- `map_bubble_to_candidate` (bubble_import.py:503): the full field mapping,
with keys in source order. -/
def map_bubble_to_candidate (row : Row) (vincere_id : Option String) : Dict :=
  let pc := normalize_position (rowGet row "Positions")
  let sal := parse_salary_range (rowGet row "Desired Monthly Salary")
  let ysz := parse_yacht_size_range (rowGet row "Prefered Yacht Size")
  let partner_name := rowGet row "Partner name"
  let partner_position := rowGet row "Partner Position"
  let couple_position := rowGet row "Couple Position"
  let has_partner := partner_name ≠ "" ∨ partner_position ≠ "" ∨ couple_position ≠ ""
  let email := pyStrip (pyLower (rowGet row "email"))
  [("vincere_id", optStrVal vincere_id),
   ("first_name", strOrNull (pyStrip (rowGet row "Name First"))),
   ("last_name", strOrNull (pyStrip (rowGet row "Name Last"))),
   ("email", strOrNull email),
   ("phone", strOrNull (String.mk ((rowGet row "Phone Number").data.filter (fun c => c ≠ ' ')))),
   ("date_of_birth", optStrVal (parse_date (rowGet row "DOB"))),
   ("gender", strOrNull (pyLower (rowGet row "Gender"))),
   ("nationality", strOrNull (rowGet row "Nationality")),
   ("second_nationality", strOrNull (rowGet row "Nationality 2")),
   ("marital_status", strOrNull (pyLower (rowGet row "Marital Status"))),
   ("primary_position", optStrVal pc.1),
   ("position_category", optStrVal pc.2),
   ("preferred_regions",
     listOrNull (((splitOnChar ',' (rowGet row "Desired Location").data).map
       (fun g => pyStrip (String.mk g))).filter (fun s => s ≠ ""))),
   ("preferred_contract_types",
     listOrNull (normalize_contract_types (rowGet row "Prefered Contract Type"))),
   ("preferred_yacht_types",
     listOrNull (normalize_yacht_types (rowGet row "Prefered Yacht Type"))),
   ("preferred_yacht_size_min", optNatVal ysz.1),
   ("preferred_yacht_size_max", optNatVal ysz.2),
   ("desired_salary_min", optNatVal sal.1),
   ("desired_salary_max", optNatVal sal.2),
   ("salary_currency",
     if truthyOptNat sal.1 || truthyOptNat sal.2 then .vstr "EUR" else .vnull),
   ("has_stcw", .vbool (parse_boolean (rowGet row "STCW"))),
   ("has_eng1", .vbool (parse_boolean (rowGet row "ENG 1"))),
   ("highest_license", optStrVal (normalize_license (rowGet row "Highest Licence"))),
   ("second_license", optStrVal (normalize_license (rowGet row "Second Licence"))),
   ("has_b1b2", .vbool (parse_boolean (rowGet row "B1B2 Visa"))),
   ("has_schengen", .vbool (parse_boolean (rowGet row "Schengen Visa"))),
   ("is_smoker", .vbool (parse_boolean (rowGet row "Smoker"))),
   ("has_visible_tattoos", .vbool (parse_boolean (rowGet row "Tattoos"))),
   ("tattoo_description", strOrNull (rowGet row "Tattoo Location")),
   ("is_couple", .vbool has_partner),
   ("partner_name", strOrNull partner_name),
   ("partner_position", strOrNull partner_position),
   ("couple_position", strOrNull couple_position),
   ("availability_status", optStrVal (normalize_availability_status (rowGet row "Candidate Status"))),
   ("available_from", optStrVal (parse_date (rowGet row "Start Date"))),
   ("source", .vstr "bubble_import")]

/-! ## `upsert_candidate` (bubble_import.py lines 587-620)

The Supabase table is an external collaborator: the case-insensitive select
on the email, and the outcome of the `update`/`insert` executes, are oracle
fields.  The effect trace records every payload sent. -/

/-- The columns selected by `upsert_candidate` (`select("id, vincere_id")`). -/
structure DbRow where
  id : String
  vincere_id : PyVal
deriving DecidableEq, Repr

inductive UpsertAction where
  | inserted | updated | skipped | failed
deriving DecidableEq, Repr

structure UpsertEnv where
  selectByEmail : String → Except String (List DbRow)
  updateOutcome : Except String Unit
  insertOutcome : Except String Unit

structure UpsertOut where
  action : UpsertAction
  err : Option String
  updates : List (String × Dict)
  inserts : List Dict
deriving DecidableEq, Repr

/-- `upsert_candidate` (bubble_import.py:587). -/
def upsert_candidate (env : UpsertEnv) (candidate : Dict) : UpsertOut :=
  let email := dictGet candidate "email"
  if ¬ truthy email then ⟨.skipped, some "No email", [], []⟩
  else
    let emailStr := match email with
      | .vstr s => s
      | _ => ""
    match env.selectByEmail emailStr with
    | .error e => ⟨.failed, some e, [], []⟩
    | .ok rows =>
      match rows with
      | [] =>
        match env.insertOutcome with
        | .ok _ => ⟨.inserted, none, [], [candidate]⟩
        | .error e => ⟨.failed, some e, [], [candidate]⟩
      | existing :: _ =>
        let candidate2 :=
          if truthy existing.vincere_id && ¬ truthy (dictGet candidate "vincere_id") then
            dictSet candidate "vincere_id" existing.vincere_id
          else candidate
        let payload := dictDrop candidate2 "email"
        match env.updateOutcome with
        | .ok _ => ⟨.updated, none, [(existing.id, payload)], []⟩
        | .error e => ⟨.failed, some e, [(existing.id, payload)], []⟩

/-! ## `upload_to_storage` (bubble_import_avatars.py:203, bubble_import_documents.py:322)

Both scripts contain the same function: list the destination folder first and
treat a name hit as success without uploading; otherwise upload, and treat a
store error whose lower-cased text contains "already exists" or "duplicate"
as success.  A failing listing call is swallowed and the upload attempted.
The second component of the result counts upload calls performed. -/

/-- `path.rsplit("/", 1)` as used by both scripts: `(folder, filename)`;
without a slash the folder is `""` and the filename the whole path. -/
def lastSlashSplit (path : String) : String × String :=
  match path.data.reverse.span (fun c => c ≠ '/') with
  | (fnRev, []) => ("", String.mk fnRev.reverse)
  | (fnRev, _ :: folderRev) => (String.mk folderRev.reverse, String.mk fnRev.reverse)

structure StorageEnv where
  listFolder : String → Except String (List String)
  put : String → String → String → Except String Unit

def upload_to_storage (σ : StorageEnv) (path content contentType : String) : Bool × Nat :=
  let fs := lastSlashSplit path
  let doUpload : Bool × Nat :=
    match σ.put path content contentType with
    | .ok _ => (true, 1)
    | .error e =>
      let le := pyLower e
      if strContainsStr le "already exists" || strContainsStr le "duplicate" then (true, 1)
      else (false, 1)
  match σ.listFolder fs.1 with
  | .ok names => if names.contains fs.2 then (true, 0) else doUpload
  | .error _ => doUpload

/-! ## The candidate importer loop (`import_candidates`, bubble_import.py:622)

The loop is embedded over: the CSV rows, the Vincere email map, and an upsert
oracle abstracting `upsert_candidate` applied to the Supabase client (the
loop's behaviour depends on it only through the returned `(action, error)`
pair).  Timestamps (`datetime.now()`) are explicit `Nat` parameters.
Checkpoint/error-log persistence: the interval saves at lines 739-741 write
intermediate states of the same run and never change the run's result; the
final state (line 749-751) is what a later resumed run loads, so the model
returns it. -/

structure CandCp where
  last_processed_row : Nat
  imported_count : Nat
  updated_count : Nat
  skipped_count : Nat
  error_count : Nat
  started_at : Nat
  updated_at : Option Nat
  completed_at : Option Nat
deriving DecidableEq, Repr

/-- The fresh checkpoint (load_checkpoint default / resume=False literal). -/
def freshCandCp (now : Nat) : CandCp :=
  ⟨0, 0, 0, 0, 0, now, none, none⟩

structure ErrEntry where
  row : Nat
  email : String
  msg : Option String
deriving DecidableEq, Repr

structure CandEnv where
  vmap : String → Option String
  dryRun : Bool
  upsert : Dict → UpsertAction × Option String

structure CandSt where
  cp : CandCp
  errLog : List ErrEntry
  upsertCalls : Nat
  linked : Nat
  notLinked : Nat
deriving DecidableEq, Repr

/-- The loop body for one row past the skip/limit guards
(bubble_import.py lines 692-736).  Note the empty-email branch (line 696)
returns without touching `last_processed_row`; every other branch falls
through to line 736 which sets it. -/
def candProcess (env : CandEnv) (row_num : Nat) (row : Row) (st : CandSt) : CandSt :=
  let email := pyStrip (pyLower (rowGet row "email"))
  if email = "" then
    { st with cp := { st.cp with skipped_count := st.cp.skipped_count + 1 } }
  else
    let vid := env.vmap email
    let st1 :=
      if vid.isSome then { st with linked := st.linked + 1 }
      else { st with notLinked := st.notLinked + 1 }
    let candidate := map_bubble_to_candidate row vid
    let st2 :=
      if env.dryRun then
        { st1 with cp := { st1.cp with imported_count := st1.cp.imported_count + 1 } }
      else
        let st1c := { st1 with upsertCalls := st1.upsertCalls + 1 }
        match env.upsert candidate with
        | (.inserted, _) =>
          { st1c with cp := { st1c.cp with imported_count := st1c.cp.imported_count + 1 } }
        | (.updated, _) =>
          { st1c with cp := { st1c.cp with updated_count := st1c.cp.updated_count + 1 } }
        | (.skipped, _) =>
          { st1c with cp := { st1c.cp with skipped_count := st1c.cp.skipped_count + 1 } }
        | (.failed, e) =>
          { st1c with
            cp := { st1c.cp with error_count := st1c.cp.error_count + 1 },
            errLog := st1c.errLog ++ [⟨row_num, email, e⟩] }
    { st2 with cp := { st2.cp with last_processed_row := row_num } }

/-- `if limit and row_num > start_row + limit: break` — Python truthiness:
`limit=None` and `limit=0` never break. -/
def limitHit (limit : Option Nat) (startRow row_num : Nat) : Bool :=
  match limit with
  | none => false
  | some l => l ≠ 0 ∧ row_num > startRow + l

/-- The row loop (bubble_import.py lines 681-746). -/
def candLoop (env : CandEnv) (startRow : Nat) (limit : Option Nat) :
    List Row → Nat → CandSt → CandSt
  | [], _, st => st
  | row :: rest, rn0, st =>
    let row_num := rn0 + 1
    if row_num ≤ startRow then candLoop env startRow limit rest row_num st
    else if limitHit limit startRow row_num then st
    else candLoop env startRow limit rest row_num (candProcess env row_num row st)

/-- `import_candidates` (bubble_import.py:622) given the checkpoint and error
log it starts from (`resume=True` passes the persisted pair, `resume=False`
passes `freshCandCp`/`[]`), returning the final persisted state.  `tEnd`
is the completion timestamp (lines 749-750 set `completed_at` and the final
save sets `updated_at`). -/
def import_candidates (env : CandEnv) (rows : List Row) (cp0 : CandCp)
    (errs0 : List ErrEntry) (limit : Option Nat) (tEnd : Nat) : CandSt :=
  let st0 : CandSt := ⟨cp0, errs0, 0, 0, 0⟩
  let st := candLoop env cp0.last_processed_row limit rows 0 st0
  { st with cp := { st.cp with completed_at := some tEnd, updated_at := some tEnd } }

/-! ## URL and filename helpers (avatars/documents scripts)

`urllib.parse.urlparse(...).path` and `unquote` are embedded on their ASCII
fragment: the path is the part after the scheme/netloc and before any query
or fragment, `unquote` decodes `%xx` escapes byte-wise. -/

/-- `normalize_url` (identical in both scripts). -/
def normalize_url (url : String) : String :=
  if url = "" then ""
  else
    let u := pyStrip url
    if "//".data.isPrefixOf u.data then "https:" ++ u else u

/-- Valid scheme characters after the leading letter. -/
def schemeChar (c : Char) : Bool :=
  c.isAlphanum || c = '+' || c = '-' || c = '.'

/-- `urlparse(url).path` (ASCII fragment), following `urlsplit`:
tab/CR/LF are removed anywhere and leading C0-control/space characters
stripped; a leading `letter scheme-chars* :` is removed as the scheme; after
`//` the netloc runs to the first `/`, `?` or `#`; the path is what remains
before the first `?` or `#`. -/
def urlPath (u : String) : String :=
  let cs0 := u.data.filter (fun c => c ≠ '\t' ∧ c ≠ '\r' ∧ c ≠ '\n')
  let cs := cs0.dropWhile (fun c => c.toNat ≤ 32)
  let pre := cs.takeWhile (fun c => c ≠ ':')
  let isScheme : Bool :=
    decide (pre.length < cs.length) && !pre.isEmpty && pre.all schemeChar &&
      (match pre with | c :: _ => c.isAlpha | [] => false)
  let rest := if isScheme then cs.drop (pre.length + 1) else cs
  let rest2 :=
    match rest with
    | '/' :: '/' :: r => r.dropWhile (fun c => c ≠ '/' ∧ c ≠ '?' ∧ c ≠ '#')
    | r => r
  String.mk (rest2.takeWhile (fun c => c ≠ '?' ∧ c ≠ '#'))

def hexVal (c : Char) : Nat :=
  if c.isDigit then c.toNat - 48 else c.toLower.toNat - 87

/-- `[0-9a-fA-F]`. -/
def isHexDig (c : Char) : Bool :=
  c.isDigit || ('a' ≤ c.toLower ∧ c.toLower ≤ 'f')

/-- `urllib.parse.unquote` (ASCII fragment, byte-wise `%xx`). -/
def unquoteL : List Char → List Char
  | '%' :: a :: b :: rest =>
    if isHexDig a ∧ isHexDig b then Char.ofNat (hexVal a * 16 + hexVal b) :: unquoteL rest
    else '%' :: unquoteL (a :: b :: rest)
  | c :: rest => c :: unquoteL rest
  | [] => []

/-- `path.split("/")[-1]`. -/
def lastSlashSegment (path : String) : String :=
  String.mk (path.data.reverse.takeWhile (fun c => c ≠ '/')).reverse

/-- `get_filename_from_url` of the avatars script (bubble_import_avatars.py:141);
`freshName` stands for the `avatar_<uuid4 hex>.jpg` fallback. -/
def get_filename_from_url_av (freshName url : String) : String :=
  let path := String.mk (unquoteL (urlPath url).data)
  let fn0 := lastSlashSegment path
  let fn1 :=
    if strContainsStr fn0 "?" then String.mk (fn0.data.takeWhile (fun c => c ≠ '?'))
    else fn0
  if fn1 = "" then freshName else fn1

/-- `sanitize_filename` of the avatars script (bubble_import_avatars.py:156). -/
def sanitize_filename_av (filename : String) : String :=
  let safe := String.mk (filename.data.map
    (fun c => if c.isAlphanum || c = '.' || c = '-' || c = '_' then c else '_'))
  if strContainsStr safe "." then safe else safe ++ ".jpg"

/-- Collapse every maximal run of `p`-characters into a single `repl`
(`re.sub(p+, repl, ...)`); `inRun` says whether the previous character was
part of a run. -/
def collapseRunsGo (p : Char → Bool) (repl : Char) (inRun : Bool) : List Char → List Char
  | [] => []
  | c :: rest =>
    if p c then
      if inRun then collapseRunsGo p repl true rest
      else repl :: collapseRunsGo p repl true rest
    else c :: collapseRunsGo p repl false rest

def collapseRuns (p : Char → Bool) (repl : Char) (cs : List Char) : List Char :=
  collapseRunsGo p repl false cs

/-- `sanitize_filename` of the documents script (bubble_import_documents.py:228).
NFKD normalisation plus `encode('ascii','ignore')` plus the non-ASCII regex
strip are modelled together as dropping non-ASCII characters (they are the
identity on ASCII input); `freshName` stands for the `document_<uuid4 hex>`
fallback. -/
def sanitize_filename_docs (freshName filename : String) : String :=
  let s1 := filename.data.filter (fun c => c.toNat ≤ 127)
  let s2 := s1.filter (fun c => c != Char.ofNat 39 && c != '"')
  let s3 := collapseRuns pySpace '_' s2
  let s4 := s3.filter (fun c => c.isAlphanum || c = '.' || c = '_' || c = '-')
  let s5 := collapseRuns (fun c => c = '_') '_' s4
  let s6 := collapseRuns (fun c => c = '.') '.' s5
  let r := String.mk s6
  if r = "" ∨ r = "." ∨ r = "_" ∨ r = "-" then freshName else r

/-- `get_filename_from_url` of the documents script (bubble_import_documents.py:259). -/
def get_filename_from_url_docs (freshName url : String) : String :=
  let path := String.mk (unquoteL (urlPath url).data)
  let fn0 := lastSlashSegment path
  let fn1 :=
    if strContainsStr fn0 "?" then String.mk (fn0.data.takeWhile (fun c => c ≠ '?'))
    else fn0
  let fn2 := sanitize_filename_docs freshName fn1
  if fn2 = "" then freshName else fn2

/-- `DOCUMENT_TYPE_MAP` (bubble_import_documents.py:61). -/
def documentTypeMap : List (String × String) :=
  [("cv/resume", "cv"), ("cv", "cv"), ("resume", "cv"), ("cover letter", "cv"),
   ("passport/id", "id"), ("passport", "id"), ("id", "id"),
   ("seaman's discharge book", "id"),
   ("medical certificate", "medical"), ("eng1", "medical"), ("eng 1", "medical"),
   ("covid19 vaccine", "medical"),
   ("stcw", "stcw"), ("stcw first aid", "stcw"),
   ("stcw fire prevention and fire fighting", "stcw"), ("stcw pdsd", "stcw"),
   ("stcw security awareness", "stcw"), ("stcw pssr", "stcw"), ("stcw pst", "stcw"),
   ("stcw refresher", "stcw"), ("stcw refresher 2", "stcw"),
   ("stcw advanced fire fighting", "stcw"), ("stcw pscrb", "stcw"),
   ("stcw proficiency in fast rescue boats", "stcw"),
   ("licence", "license"), ("license", "license"), ("power boat ii", "license"),
   ("power boat ii ce", "license"), ("pwc", "license"), ("short range", "license"),
   ("yachtmaster offshore", "license"), ("yacht rating", "license"),
   ("helm", "license"), ("driving license", "license"),
   ("food safety certificate", "food_safety"), ("ships cook certificate", "food_safety"),
   ("sample menu", "food_safety"), ("food photos", "photo"),
   ("padi", "diving"), ("divemaster", "diving"),
   ("open water scuba instructor", "diving"),
   ("b1/b2", "visa"), ("b1 visa", "visa"), ("schengen visa", "visa"), ("visa", "visa"),
   ("written reference", "reference"),
   ("photo", "photo"), ("full length photo", "photo"), ("tattoo photo", "photo"),
   ("sso", "security"), ("aec", "certificate"),
   ("coc check", "certificate"), ("cec check", "certificate"),
   ("additional documents", "other"), ("other docs", "other"), ("other", "other"),
   ("", "other")]

/-- `normalize_document_type` (bubble_import_documents.py:278). -/
def normalize_document_type (doc_type : String) : String :=
  if doc_type = "" then "other"
  else
    let v := pyStrip (pyLower doc_type)
    match documentTypeMap.find? (fun kv => kv.1 == v) with
    | some kv => kv.2
    | none => "other"

/-! ## Shared upload checkpoint (avatars and documents scripts) -/

structure UpCp where
  last_processed_row : Nat
  uploaded_count : Nat
  skipped_count : Nat
  error_count : Nat
  started_at : Nat
  updated_at : Option Nat
  completed_at : Option Nat
deriving DecidableEq, Repr

def freshUpCp (now : Nat) : UpCp :=
  ⟨0, 0, 0, 0, now, none, none⟩

structure UpErrEntry where
  row : Nat
  email : String
  url : Option String
  msg : String
deriving DecidableEq, Repr

/-! ## The avatars importer (`import_avatars`, bubble_import_avatars.py:249) -/

/-- The columns selected by `get_candidate_by_email` (avatars script:
`select("id,photo_url")`). -/
structure AvCand where
  id : String
  photo_url : PyVal
deriving DecidableEq, Repr

structure AvEnv where
  lookup : String → Option AvCand
  download : String → Option String
  storage : StorageEnv
  updPhoto : String → String → Bool
  guessMime : String → Option String
  freshName : String
  supabaseUrl : String
  dryRun : Bool

structure AvSt where
  cp : UpCp
  errLog : List UpErrEntry
  lookupCalls : Nat
  downloadCalls : Nat
  uploadToStorageCalls : Nat
  putCalls : Nat
deriving DecidableEq, Repr

/-- The loop body for one row past the skip/limit guards
(bubble_import_avatars.py lines 302-386).  Every branch — skip, error or
success — ends by setting `last_processed_row` to this row (lines 307, 315,
331, 340, 353, 369, 381, 386). -/
def avProcess (env : AvEnv) (row_num : Nat) (row : Row) (st : AvSt) : AvSt :=
  let email := pyStrip (rowGet row "email")
  let st2 :=
    if email = "" then
      { st with cp := { st.cp with skipped_count := st.cp.skipped_count + 1 } }
    else
      let avatar_url := normalize_url (rowGet row "Avatar")
      if avatar_url = "" then
        { st with cp := { st.cp with skipped_count := st.cp.skipped_count + 1 } }
      else if env.dryRun then
        { st with cp := { st.cp with uploaded_count := st.cp.uploaded_count + 1 } }
      else
        let stl := { st with lookupCalls := st.lookupCalls + 1 }
        match env.lookup (pyStrip (pyLower email)) with
        | none =>
          { stl with
            cp := { stl.cp with skipped_count := stl.cp.skipped_count + 1 },
            errLog := stl.errLog ++ [⟨row_num, email, none, "Candidate not found in database"⟩] }
        | some cand =>
          if truthy cand.photo_url then
            { stl with cp := { stl.cp with skipped_count := stl.cp.skipped_count + 1 } }
          else
            let std := { stl with downloadCalls := stl.downloadCalls + 1 }
            match env.download avatar_url with
            | none =>
              { std with
                cp := { std.cp with error_count := std.cp.error_count + 1 },
                errLog := std.errLog ++
                  [⟨row_num, email, some avatar_url, "Failed to download avatar"⟩] }
            | some content =>
              let original := get_filename_from_url_av env.freshName avatar_url
              let safe := sanitize_filename_av original
              let storage_path := cand.id ++ "/" ++ safe
              let ctype := (env.guessMime original).getD "image/jpeg"
              let up := upload_to_storage env.storage storage_path content ctype
              let stu := { std with
                uploadToStorageCalls := std.uploadToStorageCalls + 1,
                putCalls := std.putCalls + up.2 }
              if up.1 = false then
                { stu with
                  cp := { stu.cp with error_count := stu.cp.error_count + 1 },
                  errLog := stu.errLog ++
                    [⟨row_num, email, none, "Failed to upload to storage"⟩] }
              else
                let photo_url :=
                  env.supabaseUrl ++ "/storage/v1/object/public/avatars/" ++ storage_path
                if env.updPhoto cand.id photo_url = false then
                  { stu with
                    cp := { stu.cp with error_count := stu.cp.error_count + 1 },
                    errLog := stu.errLog ++
                      [⟨row_num, email, none, "Failed to update candidate photo_url"⟩] }
                else
                  { stu with cp := { stu.cp with uploaded_count := stu.cp.uploaded_count + 1 } }
  { st2 with cp := { st2.cp with last_processed_row := row_num } }

/-- The row loop (bubble_import_avatars.py lines 293-395). -/
def avLoop (env : AvEnv) (startRow : Nat) (limit : Option Nat) :
    List Row → Nat → AvSt → AvSt
  | [], _, st => st
  | row :: rest, rn0, st =>
    let row_num := rn0 + 1
    if row_num ≤ startRow then avLoop env startRow limit rest row_num st
    else if limitHit limit startRow row_num then st
    else avLoop env startRow limit rest row_num (avProcess env row_num row st)

/-- `import_avatars` (bubble_import_avatars.py:249), as `import_candidates`. -/
def import_avatars (env : AvEnv) (rows : List Row) (cp0 : UpCp)
    (errs0 : List UpErrEntry) (limit : Option Nat) (tEnd : Nat) : AvSt :=
  let st0 : AvSt := ⟨cp0, errs0, 0, 0, 0, 0⟩
  let st := avLoop env cp0.last_processed_row limit rows 0 st0
  { st with cp := { st.cp with completed_at := some tEnd, updated_at := some tEnd } }

/-! ## The documents importer (`import_documents`, bubble_import_documents.py:393) -/

structure DocEnv where
  lookup : String → Option String
  download : String → Option String
  storage : StorageEnv
  createRec : String → String → String → String → Nat → String → Bool
  guessMime : String → Option String
  freshName : String
  dryRun : Bool

structure DocSt where
  cp : UpCp
  errLog : List UpErrEntry
  lookupCalls : Nat
  downloadCalls : Nat
  uploadToStorageCalls : Nat
  putCalls : Nat
  createCalls : Nat
deriving DecidableEq, Repr

/-- The loop body for one row past the skip/limit guards
(bubble_import_documents.py lines 445-526).  The three early skip branches
(no candidate email, no URL, Vincere S3 URL; lines 450, 458, 466) set
`last_processed_row` before `continue`; the four mid-pipeline failure
branches (candidate not found, download failed, upload failed, record
creation failed; lines 477-522) `continue` without setting it; the dry-run
and success paths fall through to line 526 which sets it. -/
def docProcess (env : DocEnv) (row_num : Nat) (row : Row) (st : DocSt) : DocSt :=
  let email := pyStrip (rowGet row "Candidate")
  if email = "" then
    { st with cp := { st.cp with
        skipped_count := st.cp.skipped_count + 1,
        last_processed_row := row_num } }
  else
    let doc_url := normalize_url (rowGet row "Document File")
    if doc_url = "" then
      { st with cp := { st.cp with
          skipped_count := st.cp.skipped_count + 1,
          last_processed_row := row_num } }
    else if strContainsStr doc_url "s3.eu-central-1.amazonaws.com" then
      { st with cp := { st.cp with
          skipped_count := st.cp.skipped_count + 1,
          last_processed_row := row_num } }
    else
      let doc_type := normalize_document_type (rowGet row "Document Type")
      let original := get_filename_from_url_docs env.freshName doc_url
      if env.dryRun then
        { st with cp := { st.cp with
            uploaded_count := st.cp.uploaded_count + 1,
            last_processed_row := row_num } }
      else
        let stl := { st with lookupCalls := st.lookupCalls + 1 }
        match env.lookup (pyStrip (pyLower email)) with
        | none =>
          { stl with
            cp := { stl.cp with skipped_count := stl.cp.skipped_count + 1 },
            errLog := stl.errLog ++
              [⟨row_num, email, none, "Candidate not found in database"⟩] }
        | some candidate_id =>
          let std := { stl with downloadCalls := stl.downloadCalls + 1 }
          match env.download doc_url with
          | none =>
            { std with
              cp := { std.cp with error_count := std.cp.error_count + 1 },
              errLog := std.errLog ++
                [⟨row_num, email, some doc_url, "Failed to download file"⟩] }
          | some content =>
            let storage_path := candidate_id ++ "/" ++ doc_type ++ "/" ++ original
            let ctype := (env.guessMime original).getD "application/octet-stream"
            let up := upload_to_storage env.storage storage_path content ctype
            let stu := { std with
              uploadToStorageCalls := std.uploadToStorageCalls + 1,
              putCalls := std.putCalls + up.2 }
            if up.1 = false then
              { stu with
                cp := { stu.cp with error_count := stu.cp.error_count + 1 },
                errLog := stu.errLog ++
                  [⟨row_num, email, none, "Failed to upload to storage"⟩] }
            else
              let stc := { stu with createCalls := stu.createCalls + 1 }
              if env.createRec candidate_id doc_type storage_path original
                   content.length ctype = false then
                { stc with
                  cp := { stc.cp with error_count := stc.cp.error_count + 1 },
                  errLog := stc.errLog ++
                    [⟨row_num, email, none, "Failed to create document record"⟩] }
              else
                { stc with cp := { stc.cp with
                    uploaded_count := stc.cp.uploaded_count + 1,
                    last_processed_row := row_num } }

/-- The row loop (bubble_import_documents.py lines 436-535). -/
def docLoop (env : DocEnv) (startRow : Nat) (limit : Option Nat) :
    List Row → Nat → DocSt → DocSt
  | [], _, st => st
  | row :: rest, rn0, st =>
    let row_num := rn0 + 1
    if row_num ≤ startRow then docLoop env startRow limit rest row_num st
    else if limitHit limit startRow row_num then st
    else docLoop env startRow limit rest row_num (docProcess env row_num row st)

/-- `import_documents` (bubble_import_documents.py:393). -/
def import_documents (env : DocEnv) (rows : List Row) (cp0 : UpCp)
    (errs0 : List UpErrEntry) (limit : Option Nat) (tEnd : Nat) : DocSt :=
  let st0 : DocSt := ⟨cp0, errs0, 0, 0, 0, 0, 0⟩
  let st := docLoop env cp0.last_processed_row limit rows 0 st0
  { st with cp := { st.cp with completed_at := some tEnd, updated_at := some tEnd } }

/-! ## Vincere email→id map (`bubble_import.py` lines 173-293)

The cache file, the Vincere CSV and the search API are oracle fields.
`fetch_recent_vincere_candidates` is a `while offset <= MAX_OFFSET` loop in
which the `except` branch sleeps and loops again **without changing
`offset`**; it is embedded as a fuel-indexed runner (`none` = the given
number of iterations did not finish the loop). -/

abbrev VMap := List (String × String)

def vmapGet (m : VMap) (k : String) : Option String :=
  (m.find? (fun kv => kv.1 == k)).map (fun kv => kv.2)

def vmapSet (m : VMap) (k v : String) : VMap :=
  if m.any (fun kv => kv.1 == k) then
    m.map (fun kv => if kv.1 == k then (k, v) else kv)
  else m ++ [(k, v)]

/-- One item of the `/candidate/search` response
(`fl=id,primary_email`; `item.get("primary_email")` may be null). -/
structure ApiItem where
  id : Nat
  primary_email : Option String
deriving DecidableEq, Repr

structure FetchSt where
  offset : Nat
  added : Nat
  map : VMap
deriving DecidableEq, Repr

/-- The per-page accumulation (bubble_import.py lines 237-242): returns the
updated map and `new_this_batch`. -/
def addItems (m : VMap) (items : List ApiItem) : VMap × Nat :=
  items.foldl
    (fun acc it =>
      let email := pyStrip (pyLower (it.primary_email.getD ""))
      if email ≠ "" ∧ vmapGet acc.1 email = none then
        (vmapSet acc.1 email (toString it.id), acc.2 + 1)
      else acc)
    (m, 0)

/-- `fetch_recent_vincere_candidates` (bubble_import.py:218): one `while`
iteration per unit of fuel.  `PAGE_SIZE = 100`, `MAX_OFFSET = 9900`.
On a page error the state is unchanged (the `except` branch only sleeps). -/
def fetchRun (api : Nat → Except String (List ApiItem)) :
    Nat → FetchSt → Option FetchSt
  | 0, _ => none
  | n + 1, st =>
    if st.offset > 9900 then some st
    else
      match api st.offset with
      | .error _ => fetchRun api n st
      | .ok items =>
        if items.isEmpty then some st
        else
          let r := addItems st.map items
          let st2 : FetchSt := ⟨st.offset + 100, st.added + r.2, r.1⟩
          if r.2 = 0 ∧ st2.offset > 1000 then some st2
          else if items.length < 100 then some st2
          else fetchRun api n st2

/-- `load_vincere_map_from_csv` (bubble_import.py:201). -/
def load_vincere_map_from_csv (rows : List Row) : VMap :=
  rows.foldl
    (fun m row =>
      let email := pyStrip (pyLower (rowGet row "primary_email"))
      let cid := pyStrip (rowGet row "candidate_id")
      if email ≠ "" ∧ cid ≠ "" then vmapSet m email cid else m)
    []

structure BuildEnv where
  cacheFile : Option VMap
  vincereCsvRows : Option (List Row)
  skip_api : Bool
  creds : Bool
  api : Nat → Except String (List ApiItem)

structure BuildTrace where
  parsedCsv : Bool
  apiInvoked : Bool
  saved : Bool
deriving DecidableEq, Repr

/-- `load_vincere_map` (bubble_import.py:173): the cache file's JSON object if
the file exists, otherwise the empty dict. -/
def load_vincere_map (env : BuildEnv) : VMap :=
  env.cacheFile.getD []

/-- `build_vincere_email_map` (bubble_import.py:265).  The gate at line 270 is
`if cached_map:` — Python truthiness of the loaded dict, i.e. the cached map
is used only when it is non-empty.  `vincereCsvRows = none` models a missing
or unset CSV path; `creds` models `client_id and api_key`.  Fuel bounds the
API loop; `none` means the API loop did not finish in `fuel` iterations. -/
def build_vincere_email_map (env : BuildEnv) (fuel : Nat) : Option (VMap × BuildTrace) :=
  let cached := load_vincere_map env
  if cached ≠ [] then some (cached, ⟨false, false, false⟩)
  else
    match env.vincereCsvRows with
    | some rows =>
      let m := load_vincere_map_from_csv rows
      if ¬ env.skip_api ∧ env.creds then
        match fetchRun env.api fuel ⟨0, 0, m⟩ with
        | some st => some (st.map, ⟨true, true, true⟩)
        | none => none
      else some (m, ⟨true, false, true⟩)
    | none => some ([], ⟨false, false, true⟩)

/-! # Claim theorems -/

/-! ## C7: range parsing -/

/-- C7 counterexample: the claim states that the range parsers expand a "k"
suffix by multiplying by 1000 before extracting integers, so
`parse_yacht_size_range "3k"` would give `(3000, 3000)`; the yacht-size
parser has no "k" expansion and gives `(3, 3)`. -/
theorem C7_counterexample :
    parse_yacht_size_range "3k" = (some 3, some 3) ∧
    parse_yacht_size_range "3k" ≠ ((some 3000, some 3000) : Option Nat × Option Nat) := by
  decide

/-- C7 amended: the salary parser strips currency tokens and expands a "k"
suffix by 1000; the yacht-size parser strips unit tokens only (no "k"
expansion); both then extract all embedded integers with the rule
zero → `(None, None)`, one → `(v, v)`, two or more → first two as
`(min, max)`; `"€3k - €5k"` → `(3000, 5000)`, `"45m"` → `(45, 45)`,
`""` → `(None, None)`. -/
theorem C7_amended :
    parse_salary_range "€3k - €5k" = (some 3000, some 5000) ∧
    parse_yacht_size_range "45m" = (some 45, some 45) ∧
    parse_salary_range "45m" = (some 45, some 45) ∧
    parse_salary_range "" = (none, none) ∧
    parse_yacht_size_range "" = (none, none) ∧
    parse_yacht_size_range "3k" = (some 3, some 3) ∧
    (∀ v, parse_salary_range v =
      rangeOfNums (extractNats (kExpand (pyStripL (stripSalaryTokens v.data))))) ∧
    (∀ v, parse_yacht_size_range v =
      rangeOfNums (extractNats (pyStripL (stripYachtTokens v.data)))) := by
  refine ⟨by decide, by decide, by decide, by decide, by decide, by decide, ?_, ?_⟩
  · intro v
    by_cases hv : v = ""
    · subst hv; decide
    · simp only [parse_salary_range, if_neg hv]
      rcases h : extractNats (kExpand (pyStripL (stripSalaryTokens v.data))) with _ | ⟨a, _ | ⟨b, l⟩⟩ <;>
        simp [rangeOfNums, h]
  · intro v
    by_cases hv : v = ""
    · subst hv; decide
    · simp only [parse_yacht_size_range, if_neg hv]
      rcases h : extractNats (pyStripL (stripYachtTokens v.data)) with _ | ⟨a, _ | ⟨b, l⟩⟩ <;>
        simp [rangeOfNums, h]

/-! ## C9: termination of the supplemental API fetch -/

/-- A candidate-search source that fails on every request. -/
def errApiOracle : Nat → Except String (List ApiItem) :=
  fun _ => .error "HTTP 500"

/-- C9: against a source that errors on every request, the fetch loop never
terminates — the `except` branch leaves `offset` unchanged, so no amount of
fuel finishes the loop (the claim asserts termination for every behaviour of
the source). -/
theorem C9_nontermination :
    ∀ fuel, fetchRun errApiOracle fuel ⟨0, 0, []⟩ = none := by
  intro fuel
  induction fuel with
  | zero => rfl
  | succ n ih => exact ih

/-! ## C8: the persisted lookup cache -/

/-- An environment whose cache file exists but holds the empty JSON object,
with a one-row Vincere CSV. -/
def c8emptyCacheEnv : BuildEnv :=
  ⟨some [], some [[("primary_email", "A@B.c"), ("candidate_id", " 7 ")]], true, true,
   fun _ => .error "e"⟩

/-- C8 counterexample: the cache file exists (holding `{}`), yet
`build_vincere_email_map` re-parses the primary CSV (`parsedCsv = true`)
and returns the CSV-derived map instead of the file's contents — the gate
is `if cached_map:`, Python truthiness, not file existence. -/
theorem C8_counterexample :
    build_vincere_email_map c8emptyCacheEnv 0 =
      some ([("a@b.c", "7")], ⟨true, false, true⟩) ∧
    some (([("a@b.c", "7")] : VMap), (⟨true, false, true⟩ : BuildTrace)) ≠
      some (([] : VMap), (⟨false, false, false⟩ : BuildTrace)) := by
  decide

/-- C8 amended: whenever the persisted cache file exists and holds a
non-empty map, `build_vincere_email_map` returns its contents unconditionally
— no CSV parse, no API fetch, no re-save — for every value of its other
arguments. -/
theorem C8_amended (env : BuildEnv) (fuel : Nat) (m : VMap)
    (hm : env.cacheFile = some m) (hne : m ≠ []) :
    build_vincere_email_map env fuel = some (m, ⟨false, false, false⟩) := by
  simp [build_vincere_email_map, load_vincere_map, hm, hne]

/-- An environment whose cache file holds a non-empty map. -/
def c8cachedEnv : BuildEnv :=
  ⟨some [("a@b.c", "9")], some [[("primary_email", "z@z.z"), ("candidate_id", "1")]],
   false, true, fun _ => .error "e"⟩

theorem C8_witness :
    build_vincere_email_map c8cachedEnv 0 =
      some ([("a@b.c", "9")], ⟨false, false, false⟩) :=
  C8_amended c8cachedEnv 0 [("a@b.c", "9")] rfl (by decide)

/-! ## C5: idempotent blob upload -/

/-- C5: if the destination already holds the object, `upload_to_storage`
returns success: detected by the pre-upload folder listing it performs no
upload call at all (second component 0); reported by the store as a
duplicate/already-exists error on write, the result is still success. -/
theorem C5_upload_idempotent :
    (∀ σ : StorageEnv, ∀ path content ctype names,
        σ.listFolder (lastSlashSplit path).1 = .ok names →
        (lastSlashSplit path).2 ∈ names →
        upload_to_storage σ path content ctype = (true, 0)) ∧
    (∀ σ : StorageEnv, ∀ path content ctype e,
        σ.put path content ctype = .error e →
        (strContainsStr (pyLower e) "already exists" ||
          strContainsStr (pyLower e) "duplicate") = true →
        (upload_to_storage σ path content ctype).1 = true) := by
  constructor
  · intro σ path content ctype names hlist hmem
    simp only [upload_to_storage, hlist]
    rw [if_pos]
    exact (List.elem_iff).mpr hmem
  · intro σ path content ctype e hput hdup
    simp only [upload_to_storage, hput]
    cases hl : σ.listFolder (lastSlashSplit path).1 with
    | ok names =>
      simp [hl, hdup]
      split <;> simp
    | error msg => simp [hl, hdup]

/-- A storage whose destination folder already lists the file. -/
def c5listEnv : StorageEnv :=
  ⟨fun _ => .ok ["b.jpg"], fun _ _ _ => .error "unexpected"⟩

/-- A storage whose listing fails and whose write reports a duplicate. -/
def c5dupEnv : StorageEnv :=
  ⟨fun _ => .error "listing down", fun _ _ _ => .error "Resource already EXISTS"⟩

theorem C5_witness :
    upload_to_storage c5listEnv "a/b.jpg" "data" "image/jpeg" = (true, 0) ∧
    (upload_to_storage c5dupEnv "a/b.jpg" "data" "image/jpeg").1 = true :=
  ⟨C5_upload_idempotent.1 c5listEnv "a/b.jpg" "data" "image/jpeg" ["b.jpg"] rfl (by decide),
   C5_upload_idempotent.2 c5dupEnv "a/b.jpg" "data" "image/jpeg" "Resource already EXISTS"
     rfl (by decide)⟩

/-! ## C4: upsert merge semantics -/

theorem dictGet_map_set (d : Dict) (k : String) (v : PyVal)
    (h : d.any (fun kv => kv.1 == k) = true) :
    dictGet (d.map (fun kv => if kv.1 == k then (k, v) else kv)) k = v := by
  induction d with
  | nil => simp at h
  | cons kv d ih =>
    simp only [List.any_cons, Bool.or_eq_true] at h
    by_cases hk : (kv.1 == k) = true
    · simp [dictGet, hk, List.find?]
    · have hd := h.resolve_left hk
      simp only [List.map_cons, if_neg hk]
      simp only [dictGet, List.find?, hk]
      exact ih hd

theorem dictGet_append_new (d : Dict) (k : String) (v : PyVal)
    (h : d.any (fun kv => kv.1 == k) = false) :
    dictGet (d ++ [(k, v)]) k = v := by
  induction d with
  | nil => simp [dictGet, List.find?]
  | cons kv d ih =>
    simp only [List.any_cons, Bool.or_eq_false_iff] at h
    simp only [List.cons_append]
    simp only [dictGet, List.find?, h.1]
    exact ih h.2

theorem dictGet_dictSet_self (d : Dict) (k : String) (v : PyVal) :
    dictGet (dictSet d k v) k = v := by
  unfold dictSet
  by_cases h : d.any (fun kv => kv.1 == k) = true
  · rw [if_pos h]
    exact dictGet_map_set d k v h
  · rw [if_neg h]
    have h2 : d.any (fun kv => kv.1 == k) = false := by
      cases hh : d.any (fun kv => kv.1 == k)
      · rfl
      · exact absurd hh h
    exact dictGet_append_new d k v h2

theorem dictGet_dictDrop (d : Dict) (k1 k2 : String) (h : k1 ≠ k2) :
    dictGet (dictDrop d k2) k1 = dictGet d k1 := by
  induction d with
  | nil => rfl
  | cons kv d ih =>
    simp only [dictDrop, List.filter_cons] at *
    by_cases h2 : (kv.1 != k2) = true
    · simp only [if_pos h2]
      simp only [dictGet, List.find?]
      cases hk : kv.1 == k1
      · exact ih
      · rfl
    · simp only [if_neg h2]
      have hkv2 : kv.1 = k2 := by simpa using h2
      have hk : (kv.1 == k1) = false := by
        simp [hkv2]
        exact fun hh => h hh.symm
      simp only [dictGet, List.find?, hk] at *
      exact ih

theorem dictDrop_key_ne (d : Dict) (k : String) :
    ∀ kv ∈ dictDrop d k, kv.1 ≠ k := by
  intro kv hm
  rw [dictDrop, List.mem_filter] at hm
  simpa using hm.2

/-- C4 counterexample: the claim ranges over every existing candidate with a
non-null `vincere_id`.  The code's guard is Python truthiness
(`existing.get("vincere_id")`), so an existing record whose `vincere_id` is
the non-null empty string is not protected: the update payload carries the
new record's null `vincere_id` instead of retaining `""`. -/
theorem C4_counterexample :
    ((upsert_candidate
        ⟨fun _ => .ok [⟨"id1", .vstr ""⟩], .ok (), .ok ()⟩
        [("email", .vstr "x@y.z"), ("vincere_id", .vnull), ("first_name", .vstr "A")]).updates.map
      (fun u => dictGet u.2 "vincere_id")) = [PyVal.vnull] ∧
    PyVal.vnull ≠ PyVal.vstr "" := by
  decide

/-- C4 amended: whenever the matched existing candidate has a truthy (non-null
and non-empty) `vincere_id` and the newly mapped record's `vincere_id` is
None, the update payload sent to the store retains the existing
`vincere_id`, and the `email` key is excluded from the payload. -/
theorem C4_amended (env : UpsertEnv) (candidate : Dict) (ex : DbRow) (tl : List DbRow)
    (hemail : truthy (dictGet candidate "email") = true)
    (hsel : env.selectByEmail
        (match dictGet candidate "email" with | .vstr s => s | _ => "") = .ok (ex :: tl))
    (hvid : truthy ex.vincere_id = true)
    (hnew : dictGet candidate "vincere_id" = PyVal.vnull) :
    ∃ payload,
      (upsert_candidate env candidate).updates = [(ex.id, payload)] ∧
      dictGet payload "vincere_id" = ex.vincere_id ∧
      ∀ kv ∈ payload, kv.1 ≠ "email" := by
  refine ⟨dictDrop (dictSet candidate "vincere_id" ex.vincere_id) "email", ?_, ?_, ?_⟩
  · simp only [upsert_candidate]
    rw [if_neg (by simp [hemail])]
    rw [hsel]
    simp only [hvid, hnew]
    simp only [truthy, Bool.not_false, Bool.and_true, if_pos]
    cases env.updateOutcome <;> rfl
  · rw [dictGet_dictDrop _ _ _ (by decide)]
    exact dictGet_dictSet_self candidate "vincere_id" ex.vincere_id
  · exact dictDrop_key_ne _ _

def c4env : UpsertEnv :=
  ⟨fun _ => .ok [⟨"id1", .vstr "V1"⟩], .ok (), .ok ()⟩

def c4cand : Dict :=
  [("email", .vstr "x@y.z"), ("vincere_id", .vnull), ("first_name", .vstr "A")]

theorem C4_witness :
    ∃ payload,
      (upsert_candidate c4env c4cand).updates = [("id1", payload)] ∧
      dictGet payload "vincere_id" = PyVal.vstr "V1" ∧
      ∀ kv ∈ payload, kv.1 ≠ "email" :=
  C4_amended c4env c4cand ⟨"id1", .vstr "V1"⟩ [] (by decide) rfl (by decide) (by decide)

/-! ## C6: date parsing -/

theorem length_mk (l : List Char) : (String.mk l).length = l.length := rfl

theorem strlen_append (a b : String) : (a ++ b).length = a.length + b.length := by
  show (a ++ b).data.length = a.data.length + b.data.length
  rw [String.data_append, List.length_append]

theorem monthNum_length {m : String} {mm : String} (h : monthNum m = some mm) :
    mm.length = 2 := by
  unfold monthNum at h
  cases hf : monthsTable.find? (fun kv => kv.1 == m) with
  | none => rw [hf] at h; exact absurd h (by simp)
  | some kv =>
    rw [hf] at h
    simp at h
    have hmem := List.mem_of_find?_eq_some hf
    have hall : ∀ kv ∈ monthsTable, kv.2.length = 2 := by decide
    rw [← h]
    exact hall kv hmem

theorem zfill2_length {d : List Char} (h1 : ¬ d.isEmpty = true) (h2 : d.length ≤ 2) :
    (zfill2 d).length = 2 := by
  unfold zfill2
  have hpos : 0 < d.length := by
    cases d with
    | nil => simp at h1
    | cons c t => simp
  split_ifs with h
  · rw [length_mk]
    simp [h]
  · rw [length_mk]
    omega

theorem bubbleMatch_length {cs : List Char} {d : String} (h : bubbleMatch cs = some d) :
    d.length = 10 := by
  unfold bubbleMatch at h
  simp only [] at h
  split at h
  · exact absurd h (by simp)
  · split at h
    · exact absurd h (by simp)
    · split at h
      · exact absurd h (by simp)
      · rename_i hday
        split at h
        · exact absurd h (by simp)
        · split at h
          · split at h
            · split at h
              · rename_i hmm
                cases h
                have hde : ¬ (spanP Char.isDigit
                    (spanP pySpace (spanP isWordChar cs).2).2).1.isEmpty = true := by
                  intro hemp
                  exact hday (by simp [hemp])
                have hdl : (spanP Char.isDigit
                    (spanP pySpace (spanP isWordChar cs).2).2).1.length ≤ 2 := by
                  by_contra hlen
                  apply hday
                  have hgt : (spanP Char.isDigit
                      (spanP pySpace (spanP isWordChar cs).2).2).1.length > 2 := by omega
                  simp [hgt]
                simp only [strlen_append, length_mk, monthNum_length hmm,
                  zfill2_length hde hdl]
                rfl
              · exact absurd h (by simp)
            · exact absurd h (by simp)
          · exact absurd h (by simp)

theorem isoMatch_length {cs : List Char} {d : String} (h : isoMatch cs = some d) :
    d.length = 10 := by
  unfold isoMatch at h
  split at h
  · split at h
    · cases h
      rfl
    · exact absurd h (by simp)
  · exact absurd h (by simp)

theorem usMatch_length {cs : List Char} {d : String} (h : usMatch cs = some d) :
    d.length = 10 := by
  unfold usMatch at h
  simp only [] at h
  split at h
  · exact absurd h (by simp)
  · rename_i hm
    split at h
    · rename_i x r2 heq2
      split at h
      · exact absurd h (by simp)
      · rename_i hd2
        split at h
        · split at h
          · cases h
            have hma : ¬ (spanP Char.isDigit cs).1.isEmpty = true := by
              intro hemp
              exact hm (by simp [hemp])
            have hmb : (spanP Char.isDigit cs).1.length ≤ 2 := by
              by_contra hlen
              apply hm
              have hgt : (spanP Char.isDigit cs).1.length > 2 := by omega
              simp [hgt]
            have hda : ¬ (spanP Char.isDigit r2).1.isEmpty = true := by
              intro hemp
              exact hd2 (by simp [hemp])
            have hdb : (spanP Char.isDigit r2).1.length ≤ 2 := by
              by_contra hlen
              apply hd2
              have hgt : (spanP Char.isDigit r2).1.length > 2 := by omega
              simp [hgt]
            simp only [strlen_append, length_mk, zfill2_length hma hmb,
              zfill2_length hda hdb]
            rfl
          · exact absurd h (by simp)
        · exact absurd h (by simp)
    · exact absurd h (by simp)

/-- C6: `parse_date` tries exactly three shapes in priority order — the
English month-name shape (with the month-abbreviation table applied to the
lowered first three letters of the leading word), the ISO `YYYY-MM-DD`
prefix, and `M/D/YYYY` — returning `none` when none of the three matches;
the four specified examples hold, and every successful result is a
normalized 10-character `YYYY-MM-DD` string. -/
theorem C6_parse_date :
    parse_date "Sep 2, 1994 8:30 PM" = some "1994-09-02" ∧
    parse_date "2023-01-15T10:00:00Z" = some "2023-01-15" ∧
    parse_date "3/4/2022" = some "2022-03-04" ∧
    parse_date "not a date" = none ∧
    (∀ v : String, v ≠ "" →
      parse_date v =
        match bubbleMatch (pyStripL v.data) with
        | some r => some r
        | none =>
          match isoMatch (pyStripL v.data) with
          | some r => some r
          | none => usMatch (pyStripL v.data)) ∧
    (∀ v d, parse_date v = some d → d.length = 10) := by
  refine ⟨by decide, by decide, by decide, by decide, ?_, ?_⟩
  · intro v hv
    simp only [parse_date, if_neg hv]
  · intro v d h
    unfold parse_date at h
    simp only [] at h
    split at h
    · exact absurd h (by simp)
    · split at h
      · rename_i r hb
        cases h
        exact bubbleMatch_length hb
      · split at h
        · rename_i r hi
          cases h
          exact isoMatch_length hi
        · exact usMatch_length h

theorem C6_witness : ("1994-09-02" : String).length = 10 :=
  C6_parse_date.2.2.2.2.2 "Sep 2, 1994 8:30 PM" "1994-09-02" C6_parse_date.1

/-! ## C1, C2, C3: checkpoint semantics of the candidate importer -/

theorem candLoop_skip_all (env : CandEnv) (startRow : Nat) (limit : Option Nat) :
    ∀ (rows : List Row) (rn0 : Nat) (st : CandSt),
      rn0 + rows.length ≤ startRow → candLoop env startRow limit rows rn0 st = st := by
  intro rows
  induction rows with
  | nil => intro rn0 st _; rfl
  | cons row rest ih =>
    intro rn0 st h
    simp only [List.length_cons] at h
    simp only [candLoop]
    rw [if_pos (by omega)]
    exact ih (rn0 + 1) st (by omega)

theorem candProcess_last (env : CandEnv) (rn : Nat) (row : Row) (st : CandSt)
    (h : pyStrip (pyLower (rowGet row "email")) ≠ "") :
    (candProcess env rn row st).cp.last_processed_row = rn := by
  simp only [candProcess, if_neg h]

theorem candLoop_nonempty_last (env : CandEnv) :
    ∀ (rows : List Row) (rn0 : Nat) (st : CandSt),
      (∀ r ∈ rows, pyStrip (pyLower (rowGet r "email")) ≠ "") →
      st.cp.last_processed_row = rn0 →
      (candLoop env 0 none rows rn0 st).cp.last_processed_row = rn0 + rows.length := by
  intro rows
  induction rows with
  | nil => intro rn0 st _ hst; simpa using hst
  | cons row rest ih =>
    intro rn0 st hall hst
    simp only [candLoop]
    rw [if_neg (by omega)]
    rw [if_neg (by simp [limitHit])]
    have h1 : pyStrip (pyLower (rowGet row "email")) ≠ "" := hall row (by simp)
    have hrec := ih (rn0 + 1) (candProcess env (rn0 + 1) row st)
      (fun r hr => hall r (by simp [hr]))
      (candProcess_last env (rn0 + 1) row st h1)
    rw [hrec]
    simp only [List.length_cons]
    omega

/-- C2 amended: after a completed fresh run over a CSV in which every row has
a non-empty (lowered, stripped) email, running `import_candidates` again with
`resume=true` over the same rows performs zero upsert calls and returns the
same state except that `updated_at` and `completed_at` carry the second
run's timestamp (and the per-run link tallies restart at zero). -/
theorem C2_amended (env : CandEnv) (rows : List Row) (t0 t1 t2 : Nat)
    (hall : ∀ r ∈ rows, pyStrip (pyLower (rowGet r "email")) ≠ "") :
    import_candidates env rows
        (import_candidates env rows (freshCandCp t0) [] none t1).cp
        (import_candidates env rows (freshCandCp t0) [] none t1).errLog none t2 =
      { cp := { (import_candidates env rows (freshCandCp t0) [] none t1).cp with
                  updated_at := some t2, completed_at := some t2 },
        errLog := (import_candidates env rows (freshCandCp t0) [] none t1).errLog,
        upsertCalls := 0, linked := 0, notLinked := 0 } := by
  set R1 := import_candidates env rows (freshCandCp t0) [] none t1 with hR1
  have hlast : R1.cp.last_processed_row = rows.length := by
    rw [hR1]
    simp only [import_candidates]
    simpa [freshCandCp] using
      candLoop_nonempty_last env rows 0 ⟨freshCandCp t0, [], 0, 0, 0⟩ hall (by simp [freshCandCp])
  simp only [import_candidates]
  rw [hlast, candLoop_skip_all env rows.length none rows 0
    ⟨R1.cp, R1.errLog, 0, 0, 0⟩ (by omega)]
  simp [hlast]

def c1env : CandEnv :=
  ⟨fun _ => none, false, fun _ => (.inserted, none)⟩

def c2wRows : List Row := [[("email", "a@x")]]

theorem C2_witness :
    import_candidates c1env c2wRows
        (import_candidates c1env c2wRows (freshCandCp 0) [] none 0).cp
        (import_candidates c1env c2wRows (freshCandCp 0) [] none 0).errLog none 1 =
      { cp := { (import_candidates c1env c2wRows (freshCandCp 0) [] none 0).cp with
                  updated_at := some 1, completed_at := some 1 },
        errLog := (import_candidates c1env c2wRows (freshCandCp 0) [] none 0).errLog,
        upsertCalls := 0, linked := 0, notLinked := 0 } :=
  C2_amended c1env c2wRows 0 0 1 (by decide)

/-- Checkpoint equality on every field except `updated_at`. -/
def candCpEqExceptUpdatedAt (a b : CandCp) : Bool :=
  a.last_processed_row == b.last_processed_row &&
  a.imported_count == b.imported_count &&
  a.updated_count == b.updated_count &&
  a.skipped_count == b.skipped_count &&
  a.error_count == b.error_count &&
  a.started_at == b.started_at &&
  a.completed_at == b.completed_at

def c2rows : List Row := [[("email", "")]]

/-- C2 counterexample: a completed run over a CSV whose single row has an
empty email leaves `last_processed_row = 0` (the skip branch never advances
it), so a second `resume=true` run re-processes the already-skipped row:
`skipped_count` grows from 1 to 2 and `completed_at` is overwritten — the
final checkpoint is not identical-except-`updated_at` (the second run still
performs zero upsert calls). -/
theorem C2_counterexample :
    (import_candidates c1env c2rows
        (import_candidates c1env c2rows (freshCandCp 0) [] none 0).cp
        (import_candidates c1env c2rows (freshCandCp 0) [] none 0).errLog none 1).upsertCalls
        = 0 ∧
    (import_candidates c1env c2rows (freshCandCp 0) [] none 0).cp.skipped_count = 1 ∧
    (import_candidates c1env c2rows
        (import_candidates c1env c2rows (freshCandCp 0) [] none 0).cp
        (import_candidates c1env c2rows (freshCandCp 0) [] none 0).errLog none 1).cp.skipped_count
        = 2 ∧
    candCpEqExceptUpdatedAt
        (import_candidates c1env c2rows
            (import_candidates c1env c2rows (freshCandCp 0) [] none 0).cp
            (import_candidates c1env c2rows (freshCandCp 0) [] none 0).errLog none 1).cp
        (import_candidates c1env c2rows (freshCandCp 0) [] none 0).cp = false := by
  decide

def c1rows : List Row := [[("email", "a@x")], [("email", "")], [("email", "b@x")]]

/-- C1: a fresh limited run (`limit=2`) over three rows whose second has an
empty email decides rows 1 and 2 (insert, skip) and persists
`last_processed_row = 1`, `skipped_count = 1`; the resumed run starts after
row 1 and so processes the already-decided row 2 a second time
(`skipped_count` reaches 2) — an already-decided row is not processed zero
times, contradicting the claim's consequent. -/
theorem C1_reprocess_decided_row :
    (import_candidates c1env c1rows (freshCandCp 0) [] (some 2) 0).cp.last_processed_row = 1 ∧
    (import_candidates c1env c1rows (freshCandCp 0) [] (some 2) 0).cp.skipped_count = 1 ∧
    (import_candidates c1env c1rows (freshCandCp 0) [] (some 2) 0).cp.imported_count = 1 ∧
    (import_candidates c1env c1rows
        (import_candidates c1env c1rows (freshCandCp 0) [] (some 2) 0).cp
        (import_candidates c1env c1rows (freshCandCp 0) [] (some 2) 0).errLog
        (some 2) 1).cp.skipped_count = 2 := by
  decide

def c3avEnv : AvEnv :=
  ⟨fun _ => none, fun _ => none, ⟨fun _ => .ok [], fun _ _ _ => .ok ()⟩,
   fun _ _ => true, fun _ => none, "avatar_x.jpg", "http://sb", false⟩

/-- C3: on a row with an empty email, the avatars importer increments
`skipped_count` and advances `last_processed_row` to the row's ordinal
(lines 302-308), while the candidate importer increments `skipped_count` but
leaves `last_processed_row` unchanged (line 696 continues before line 736);
neither performs an upsert call for the row. -/
theorem C3_skip_checkpoint_divergence :
    (import_avatars c3avEnv [[("email", "")]] (freshUpCp 0) [] none 0).cp.skipped_count = 1 ∧
    (import_avatars c3avEnv [[("email", "")]] (freshUpCp 0) [] none 0).cp.last_processed_row
      = 1 ∧
    (import_candidates c1env [[("email", "")]] (freshCandCp 0) [] none 0).cp.skipped_count
      = 1 ∧
    (import_candidates c1env [[("email", "")]] (freshCandCp 0) [] none 0).cp.last_processed_row
      = 0 ∧
    (import_candidates c1env [[("email", "")]] (freshCandCp 0) [] none 0).upsertCalls = 0 := by
  decide

/-! ## C10: the Vincere S3 skip in the documents importer -/

/-- C10: for every environment and state, a row with a non-empty candidate
email whose normalized document URL contains
`s3.eu-central-1.amazonaws.com` is counted as skipped and advances
`last_processed_row` to its ordinal, with no download, no storage call and
no database call — the state is unchanged except those two counters. -/
theorem C10_s3_skip (env : DocEnv) (row_num : Nat) (row : Row) (st : DocSt)
    (hemail : pyStrip (rowGet row "Candidate") ≠ "")
    (hs3 : strContainsStr (normalize_url (rowGet row "Document File"))
        "s3.eu-central-1.amazonaws.com" = true) :
    docProcess env row_num row st =
      { st with cp := { st.cp with
          skipped_count := st.cp.skipped_count + 1,
          last_processed_row := row_num } } := by
  have hurl : normalize_url (rowGet row "Document File") ≠ "" := by
    intro h0
    rw [h0] at hs3
    exact absurd hs3 (by decide)
  simp only [docProcess, if_neg hemail, if_neg hurl, if_pos hs3]

def c10env : DocEnv :=
  ⟨fun _ => some "cid", fun _ => some "data", ⟨fun _ => .ok [], fun _ _ _ => .ok ()⟩,
   fun _ _ _ _ _ _ => true, fun _ => none, "doc_x", false⟩

def c10row : Row :=
  [("Candidate", "a@x"), ("Document File", "//s3.eu-central-1.amazonaws.com/b/f.pdf")]

def c10st : DocSt := ⟨freshUpCp 0, [], 0, 0, 0, 0, 0⟩

theorem C10_witness :
    docProcess c10env 5 c10row c10st =
      { c10st with cp := { c10st.cp with
          skipped_count := c10st.cp.skipped_count + 1,
          last_processed_row := 5 } } :=
  C10_s3_skip c10env 5 c10row c10st (by decide) (by decide)
